import Mathlib

/-!
# Verification of the GeoPy processing scripts

Shallow embedding of the control logic of the two processing scripts
`src/processing/shpavg.py` (worker `performExtraction` and the batch driver)
and `src/datasets/wrfavg.py` (worker `computeClimatology`), together with
theorems settling the specification claims about staleness-aware skipping,
atomic output publication, date-range handling, worker return values,
dataset dispatch and the batch exit code.

Modification times are modelled as integers (timestamps ordered as the
`datetime` values in the code are), file sizes as integers (bytes), and
Python exceptions as explicit error results.
-/

namespace GeoPy

/-! ## Staleness reference time (`sourceage`)

`shpavg.py` lines 162-166 and `wrfavg.py` lines 47-51 both run

    sourceage = datetime.today()
    for filename in source.filelist:
      age = datetime.fromtimestamp(os.path.getmtime(filename))
      sourceage = age if age < sourceage else sourceage

i.e. a fold over the source files' modification times, keeping the smaller
value at each step, started from the current time. -/

/-- The `sourceage` computation of both workers: fold over the modification
times of the files in `source.filelist`, keeping the smaller value, starting
from the current time `today`. -/
def sourceage (today : Int) (mtimes : List Int) : Int :=
  mtimes.foldl (fun s a => if a < s then a else s) today

/-- Specification-side definition, for comparison: the spec says `sourceage`
is "the most recent (maximum) modification time among all files in the source
dataset's filelist". -/
def spec_sourceage (mtimes : List Int) : Option Int := mtimes.max?

/-! ## Skip decision

`shpavg.py` lines 192-208 (inside `performExtraction`):

    lskip = False
    if lwrite:
      ...
      if os.path.exists(filepath):
        if not loverwrite:
          age = datetime.fromtimestamp(os.path.getmtime(filepath))
          if age > sourceage and os.path.getsize(filepath) > 1e6: lskip = True
        if not lskip: os.remove(filepath)

`wrfavg.py` lines 82-89 (inside `computeClimatology`):

    lskip = False
    if os.path.exists(filepath):
      if not loverwrite:
        age = datetime.fromtimestamp(os.path.getmtime(filepath))
        if age > sourceage: lskip = True
      if not lskip: os.remove(filepath)
-/

/-- Outcome of the skip check: whether the job is skipped, and whether the
existing final artifact was removed in preparation for recomputation. -/
structure SkipState where
  lskip : Bool
  removed : Bool
deriving Repr, DecidableEq

/-- Skip decision of `performExtraction` (shpavg.py lines 192-208): under
`lwrite`, if the final artifact exists and overwrite is unset, skip exactly
when the artifact is newer than `sourceage` and larger than `1e6` bytes;
any existing artifact that is not skipped is removed. -/
def shpavgSkipCheck (lwrite lexists loverwrite : Bool) (age srcage size : Int) :
    SkipState :=
  if lwrite && lexists then
    let lskip := !loverwrite && decide (age > srcage) && decide (size > 1000000)
    { lskip := lskip, removed := !lskip }
  else
    { lskip := false, removed := false }

/-- Skip decision of `computeClimatology` (wrfavg.py lines 82-89): if the
final artifact exists and overwrite is unset, skip exactly when the artifact
is newer than `sourceage`; no size threshold is consulted. The artifact's
`size` is part of the job's observable state but is not read by this code. -/
def wrfavgSkipCheck (lexists loverwrite : Bool) (age srcage : Int) : SkipState :=
  if lexists then
    let lskip := !loverwrite && decide (age > srcage)
    { lskip := lskip, removed := !lskip }
  else
    { lskip := false, removed := false }

/-- Specification-side skip predicate of claim C1: skip iff overwrite unset,
artifact newer than `sourceage`, and artifact larger than the minimum
credible size threshold (about 1 MB). -/
def spec_skipC1 (lexists loverwrite : Bool) (age srcage size : Int) : Bool :=
  lexists && !loverwrite && decide (age > srcage) && decide (size > 1000000)

/-! ## Temporary file names and the write/publish sequence

`shpavg.py` lines 193-201 build the temporary file name:

    if lreturn: tmpfilename = filename
    else:
      if lparallel: tmppfx = 'tmp_{:s}_{:s}_'.format(shape_name,pidstr[1:-1])
      else: tmppfx = 'tmp_{:s}_'.format(shape_name)
      tmpfilename = tmppfx + filename

and lines 226-252 create the sink at the temporary path, sync, close, and
finally rename to the final path. `wrfavg.py` lines 97-128 create the sink
directly at the final path and only sync and close it. -/

/-- Python string slice `pidstr[1:-1]`: drop the first and last character. -/
def pidstrInner (pidstr : String) : String := (pidstr.drop 1).dropRight 1

/-- The temporary-name marker `tmppfx` of `performExtraction`
(shpavg.py lines 197-198). -/
def shpavgTmppfx (lparallel : Bool) (shapeName pidstr : String) : String :=
  if lparallel then "tmp_" ++ shapeName ++ "_" ++ pidstrInner pidstr ++ "_"
  else "tmp_" ++ shapeName ++ "_"

/-- The temporary file name of `performExtraction` (shpavg.py lines 194-199):
equal to the final `filename` when `lreturn`, otherwise `tmppfx + filename`. -/
def shpavgTmpfilename (lreturn lparallel : Bool)
    (shapeName pidstr filename : String) : String :=
  if lreturn then filename
  else shpavgTmppfx lparallel shapeName pidstr ++ filename

/-- Filesystem-visible events of the write/publish phase of a job. -/
inductive FileEvent where
  | removeTmp (path : String)
  | createSink (path : String)
  | syncSink
  | closeSink
  | removeFinal (path : String)
  | renameFile (src dst : String)
deriving Repr, DecidableEq

/-- Recogniser for `FileEvent.renameFile`. -/
def FileEvent.isRename : FileEvent → Bool
  | FileEvent.renameFile _ _ => true
  | _ => false

/-- The write/publish event sequence of the non-skip branch of
`performExtraction` with `lwrite = True` (shpavg.py lines 226-252): remove a
stale temp file, create the sink at the temporary path, sync it, and - unless
the dataset is returned to the caller - close it, remove any old final
artifact, and rename the temporary file to the final path. -/
def shpavgWriteTrace (lreturn lparallel tmpExists finalExists : Bool)
    (shapeName pidstr filename avgfolder : String) : List FileEvent :=
  let tmpfilename := shpavgTmpfilename lreturn lparallel shapeName pidstr filename
  let filepath := avgfolder ++ filename
  let tmpfilepath := avgfolder ++ tmpfilename
  (if tmpExists then [FileEvent.removeTmp tmpfilepath] else [])
    ++ [FileEvent.createSink tmpfilepath, FileEvent.syncSink]
    ++ (if lreturn then []
        else [FileEvent.closeSink]
          ++ (if finalExists then [FileEvent.removeFinal filepath] else [])
          ++ [FileEvent.renameFile tmpfilepath filepath])

/-- The write/publish event sequence of the non-skip branch of
`computeClimatology` (wrfavg.py lines 97-128): the sink is created directly
at the final path `expfolder + filename`, synced and closed; there is no
temporary path and no rename. -/
def wrfavgWriteTrace (expfolder filename : String) : List FileEvent :=
  [FileEvent.createSink (expfolder ++ filename), FileEvent.syncSink,
   FileEvent.closeSink]

/-! ## Date-range logic of `computeClimatology`

`wrfavg.py` lines 53-72:

    filebegin = int(source.atts.begin_date.split('-')[0])
    fileend = int(source.atts.end_date.split('-')[0])
    begindate = offset + filebegin
    if not ( filebegin <= begindate <= fileend ): raise DateError
    if periods is None: periods = [begindate-fileend]
    for period in periods:
      enddate = begindate + period
      if filebegin > enddate: raise DateError
      if enddate > fileend:
        logger.info('Invalid Period: End Date {:4d} not in File!')
      else:
        periodstr = '{0:4d}-{1:4d}'.format(begindate,enddate)
        ... actual computation ...
-/

/-- Python's `'{0:4d}'` field: decimal digits right-aligned in width 4. -/
def pad4 (s : String) : String :=
  String.mk (List.replicate (4 - s.length) ' ') ++ s

/-- Python `'{0:4d}'.format(n)`. -/
def fmt4d (n : Int) : String := pad4 (toString n)

/-- The period string `'{0:4d}-{1:4d}'.format(begindate,enddate)`. -/
def periodstrWRF (begindate enddate : Int) : String :=
  fmt4d begindate ++ "-" ++ fmt4d enddate

/-- Per-period outcome of the loop in `computeClimatology`: either the
period is logged as invalid and skipped, or its climatology is computed
under the given period string. -/
inductive PeriodOutcome where
  | invalidPeriod
  | computed (pstr : String)
deriving Repr, DecidableEq

/-- The per-period loop of `computeClimatology` (wrfavg.py lines 62-72):
`DateError` when `filebegin > enddate`; a logged, skipped outcome when
`enddate > fileend`; otherwise the climatology for that period string. -/
def processPeriodList (filebegin fileend begindate : Int) :
    List Int → Except Unit (List PeriodOutcome)
  | [] => Except.ok []
  | p :: ps =>
    let enddate := begindate + p
    if filebegin > enddate then Except.error ()
    else
      match processPeriodList filebegin fileend begindate ps with
      | Except.error e => Except.error e
      | Except.ok rest =>
        if enddate > fileend then Except.ok (PeriodOutcome.invalidPeriod :: rest)
        else Except.ok (PeriodOutcome.computed (periodstrWRF begindate enddate) :: rest)

/-- The default period list `[begindate - fileend]` used when
`periods is None` (wrfavg.py line 60), with `begindate = offset + filebegin`. -/
def defaultPeriods (filebegin fileend offset : Int) : List Int :=
  [offset + filebegin - fileend]

/-- The whole date-range logic of `computeClimatology`
(wrfavg.py lines 53-72). -/
def computeClimatologyPeriods (filebegin fileend offset : Int)
    (periods : Option (List Int)) : Except Unit (List PeriodOutcome) :=
  let begindate := offset + filebegin
  if filebegin ≤ begindate ∧ begindate ≤ fileend then
    processPeriodList filebegin fileend begindate
      (periods.getD (defaultPeriods filebegin fileend offset))
  else Except.error ()

/-! ## Worker return value

`performExtraction` (shpavg.py lines 211-260): the skip branch only logs a
message and the function ends without a `return` statement (Python then
returns `None`); the compute branch ends with `return sink` when `lreturn`
and `return 0` otherwise. -/

/-- A Python value returned by the worker. -/
inductive PyValue where
  | pyNone
  | int (n : Int)
  | sinkDataset
deriving Repr, DecidableEq

/-- The value `performExtraction` returns when it completes without raising
(shpavg.py lines 211-260). -/
def performExtractionResult (lskip lreturn : Bool) : PyValue :=
  if lskip then PyValue.pyNone
  else if lreturn then PyValue.sinkDataset
  else PyValue.int 0

/-! ## Period resolution and the period-attribute consistency check

`shpavg.py` lines 65-71 (WRF; CESM lines 97-103 are identical): a `None`
period stays `None`, an integer `n` becomes `(beginyear, beginyear+n)`, a
pair stays itself. Lines 87-90 (WRF) and 117-121 (CESM):

    if period is None: periodstr = ''
    else: periodstr = '{0:4d}-{1:4d}'.format(*period)
    if 'period' in source.atts and periodstr != source.atts.period:
      raise DateError
-/

/-- The `period` argument of a WRF/CESM job, in its recognised forms. -/
inductive PeriodArg where
  | noPeriod
  | intPeriod (n : Int)
  | pairPeriod (a b : Int)
deriving Repr, DecidableEq

/-- Period resolution (shpavg.py lines 67-70 and 99-102). -/
def resolvePeriod (beginyear : Int) : PeriodArg → Option (Int × Int)
  | PeriodArg.noPeriod => none
  | PeriodArg.intPeriod n => some (beginyear, beginyear + n)
  | PeriodArg.pairPeriod a b => some (a, b)

/-- The `periodstr` derived from the resolved period (shpavg.py lines 87-88 and
117-119): empty for `None`, else `'{0:4d}-{1:4d}'.format(*period)`. -/
def periodstrOf : Option (Int × Int) → String
  | none => ""
  | some (b, e) => fmt4d b ++ "-" ++ fmt4d e

/-- The period-attribute consistency check (shpavg.py lines 89-90 and
120-121): `DateError` is raised iff the source carries a `period` attribute
and it differs from `periodstr`. -/
def periodConsistencyError (period : Option (Int × Int))
    (attsPeriod : Option String) : Bool :=
  match attsPeriod with
  | none => false
  | some p => periodstrOf period != p

/-! ## Dataset dispatch

`shpavg.py` lines 59, 92, 123 and 150-151: string-keyed branching
`if dataset == 'WRF' ... elif dataset == 'CESM' ... elif
dataset == dataset.upper() ... else: raise DatasetError`. -/

/-- The branch selected by `performExtraction` for a dataset identifier. -/
inductive DatasetBranch where
  | wrf
  | cesm
  | observational
  | notFoundError
deriving Repr, DecidableEq

/-- Python's `str.upper()` on the identifier strings in use (ASCII):
uppercase every character. -/
def strUpper (s : String) : String := String.mk (s.data.map Char.toUpper)

/-- Dataset dispatch of `performExtraction` (shpavg.py lines 59-151):
`'WRF'` and `'CESM'` have their own branches, any other identifier equal to
its own uppercase form enters the observational branch (where a module named
after the dataset is imported), and only the remaining identifiers raise
`DatasetError`. -/
def datasetDispatch (dataset : String) : DatasetBranch :=
  if dataset = "WRF" then DatasetBranch.wrf
  else if dataset = "CESM" then DatasetBranch.cesm
  else if dataset = strUpper dataset then DatasetBranch.observational
  else DatasetBranch.notFoundError

/-! ## Input checking of `performExtraction`

`shpavg.py` lines 40-58: type checks on `dataset`, `dataargs` and
`shape_dict`, then, in parallel mode, `IOError` when `lwrite` is unset or
`lreturn` is set; only afterwards is the logger set up, the source loaded,
and the staleness check performed. -/

/-- Errors raised during the worker's input checking. -/
inductive WorkerError where
  | typeError
  | errInputOutput
deriving Repr, DecidableEq

/-- Actions the worker performs after input checking succeeds, in order. -/
inductive SetupEvent where
  | loggingSetup
  | sourceLoad
  | stalenessCheck
deriving Repr, DecidableEq

/-- Whether the arguments of a call to `performExtraction` pass the
`isinstance` checks, and the mode flags (shpavg.py lines 37-46). -/
structure ExtractionFlags where
  datasetIsString : Bool
  dataargsIsDict : Bool
  shapeDictIsOrderedDict : Bool
  lparallel : Bool
  lwrite : Bool
  lreturn : Bool
deriving Repr, DecidableEq

/-- The input-checking stage of `performExtraction` (shpavg.py lines 40-58):
the result is the list of setup actions the worker goes on to perform, or the
error raised before any of them happens. -/
def performExtractionSetup (a : ExtractionFlags) :
    Except WorkerError (List SetupEvent) :=
  if !a.datasetIsString then Except.error WorkerError.typeError
  else if !a.dataargsIsDict then Except.error WorkerError.typeError
  else if !a.shapeDictIsOrderedDict then Except.error WorkerError.typeError
  else if a.lparallel && !a.lwrite then Except.error WorkerError.errInputOutput
  else if a.lparallel && a.lreturn then Except.error WorkerError.errInputOutput
  else Except.ok [SetupEvent.loggingSetup, SetupEvent.sourceLoad,
                  SetupEvent.stalenessCheck]

/-! ## Batch exit code

`shpavg.py` lines 476-478:

    ec = asyncPoolEC(performExtraction, args, kwargs, ...)
    exit(int(10+np.ceil(10.*ec/len(args))) if ec > 0 else 0)

with `ec` the number of failed jobs and `len(args)` the number of jobs.
`np.ceil(10.*ec/n)` is the exact rational ceiling for all feasible sizes,
i.e. `(10*ec + n - 1) / n` in natural division. -/

/-- Value `int(np.ceil(10.*ec/n))` for `0 < n`. -/
def exitCeil (ec n : Nat) : Nat := (10 * ec + n - 1) / n

/-- The batch driver's exit code (shpavg.py line 478). -/
def batchExitCode (ec n : Nat) : Nat :=
  if 0 < ec then 10 + exitCeil ec n else 0

/-! ## Claim C1: skip decision -/

/-- C1 (amended): the shape-average worker skips exactly when the final
artifact exists (under `lwrite`), overwrite is unset, the artifact is newer
than `sourceage`, and it is larger than the 1 MB threshold; the climatology
worker skips exactly when the artifact exists, overwrite is unset and the
artifact is newer than `sourceage`, with no size threshold; in each worker
an existing artifact that is not skipped is removed before recomputation. -/
theorem C1_skip_characterisation (lwrite lexists loverwrite : Bool)
    (age srcage size : Int) :
    ((shpavgSkipCheck lwrite lexists loverwrite age srcage size).lskip = true ↔
      (lwrite = true ∧ lexists = true ∧ loverwrite = false ∧
        srcage < age ∧ 1000000 < size)) ∧
    ((shpavgSkipCheck lwrite lexists loverwrite age srcage size).removed = true ↔
      (lwrite = true ∧ lexists = true ∧
        (shpavgSkipCheck lwrite lexists loverwrite age srcage size).lskip = false)) ∧
    ((wrfavgSkipCheck lexists loverwrite age srcage).lskip = true ↔
      (lexists = true ∧ loverwrite = false ∧ srcage < age)) ∧
    ((wrfavgSkipCheck lexists loverwrite age srcage).removed = true ↔
      (lexists = true ∧
        (wrfavgSkipCheck lexists loverwrite age srcage).lskip = false)) := by
  rcases lwrite <;> rcases lexists <;> rcases loverwrite <;>
    simp [shpavgSkipCheck, wrfavgSkipCheck] <;> omega

/-- C1 is false as stated: a climatology job whose existing artifact is newer
than `sourceage` but only 100 bytes (far below the minimum credible size
threshold) must, per the claim, be recomputed, yet `computeClimatology`
skips it - its skip check reads no file size at all. -/
theorem C1_counterexample :
    (wrfavgSkipCheck true false 10 5).lskip = true ∧
    spec_skipC1 true false 10 5 100 = false := by decide

/-! ## Claim C2: the staleness reference time -/

/-- C2 (amended): `sourceage` is the oldest (minimum) modification time among
the source files, clamped above by the current time - a lower bound on every
file's time that is attained - not the most recent (maximum) one. -/
theorem C2_sourceage_is_oldest (today : Int) (ms : List Int) :
    sourceage today ms ≤ today ∧
    (∀ a ∈ ms, sourceage today ms ≤ a) ∧
    (sourceage today ms = today ∨ sourceage today ms ∈ ms) := by
  induction ms generalizing today with
  | nil => simp [sourceage]
  | cons a as ih =>
    have hstep : sourceage today (a :: as) =
        sourceage (if a < today then a else today) as := rfl
    rw [hstep]
    by_cases hc : a < today
    · rw [if_pos hc]
      obtain ⟨h1, h2, h3⟩ := ih a
      refine ⟨by omega, ?_, ?_⟩
      · intro b hb
        rcases List.mem_cons.mp hb with hb | hb
        · subst hb; omega
        · exact h2 b hb
      · rcases h3 with h3 | h3
        · exact Or.inr (by rw [h3]; exact List.mem_cons_self _ _)
        · exact Or.inr (List.mem_cons_of_mem _ h3)
    · rw [if_neg hc]
      obtain ⟨h1, h2, h3⟩ := ih today
      refine ⟨h1, ?_, ?_⟩
      · intro b hb
        rcases List.mem_cons.mp hb with hb | hb
        · subst hb; omega
        · exact h2 b hb
      · rcases h3 with h3 | h3
        · exact Or.inl h3
        · exact Or.inr (List.mem_cons_of_mem _ h3)

/-- C2 witness: the characterisation applied to the concrete file list
`[1, 5]` with current time `100`. -/
theorem C2_sourceage_is_oldest_witness : sourceage 100 [1, 5] ≤ 1 :=
  (C2_sourceage_is_oldest 100 [1, 5]).2.1 1 (by decide)

/-- C2 is false as stated: for source files with modification times 1 and 5
(current time 100) the code computes `sourceage = 1`, while the most recent
modification time is 5. -/
theorem C2_counterexample :
    sourceage 100 [1, 5] = 1 ∧ spec_sourceage [1, 5] = some 5 ∧
    (1 : Int) ≠ 5 := by decide

/-! ## Claim C5: worker return value -/

/-- C5 (amended): when `performExtraction` completes without raising, the
compute path returns the integer 0 (or the in-memory sink dataset when
`lreturn` was requested), but the staleness-skip path ends the function
without a return statement, so it returns Python `None` - a value distinct
from both. -/
theorem C5_return_values (lskip lreturn : Bool) :
    (performExtractionResult lskip lreturn = PyValue.int 0 ↔
      lskip = false ∧ lreturn = false) ∧
    (performExtractionResult lskip lreturn = PyValue.sinkDataset ↔
      lskip = false ∧ lreturn = true) ∧
    (performExtractionResult lskip lreturn = PyValue.pyNone ↔ lskip = true) := by
  rcases lskip <;> rcases lreturn <;> simp [performExtractionResult]

/-- C5 is false as stated: the staleness-skip outcome of a completed
invocation returns Python `None`, which is neither the integer status code 0
nor the in-memory sink dataset. -/
theorem C5_counterexample :
    performExtractionResult true false = PyValue.pyNone ∧
    PyValue.pyNone ≠ PyValue.int 0 ∧
    PyValue.pyNone ≠ PyValue.sinkDataset := by decide

/-! ## Claim C6: period-attribute consistency check -/

/-- C6: for a WRF or CESM job whose source was loaded, a `DateError` is
raised by the period-consistency check if and only if the source carries a
`period` attribute differing from the period string derived from the
requested period - the empty string when no period is requested, and
`'{0:4d}-{1:4d}'` of the resolved period otherwise (e.g. `"1979-1989"` for
integer period 10 against begin year 1979). -/
theorem C6_period_consistency (beginyear : Int) (parg : PeriodArg)
    (attsPeriod : Option String) :
    (periodConsistencyError (resolvePeriod beginyear parg) attsPeriod = true ↔
      ∃ p, attsPeriod = some p ∧
        p ≠ periodstrOf (resolvePeriod beginyear parg)) ∧
    periodstrOf (resolvePeriod beginyear PeriodArg.noPeriod) = "" ∧
    periodstrOf (resolvePeriod 1979 (PeriodArg.intPeriod 10)) = "1979-1989" := by
  refine ⟨?_, rfl, by decide⟩
  cases attsPeriod with
  | none => simp [periodConsistencyError]
  | some p =>
    simp [periodConsistencyError, bne_iff_ne]
    exact ne_comm

/-! ## Claim C8: dataset dispatch -/

/-- C8 (amended): `performExtraction` raises `DatasetError` exactly for the
identifiers that are not `'WRF'`, not `'CESM'`, and not equal to their own
uppercase form; an unknown all-uppercase identifier instead selects the
observational branch, where a module named after the dataset is imported. -/
theorem C8_dispatch (dataset : String) :
    (datasetDispatch dataset = DatasetBranch.notFoundError ↔
      dataset ≠ "WRF" ∧ dataset ≠ "CESM" ∧ dataset ≠ strUpper dataset) ∧
    (datasetDispatch dataset = DatasetBranch.observational ↔
      dataset ≠ "WRF" ∧ dataset ≠ "CESM" ∧ dataset = strUpper dataset) := by
  unfold datasetDispatch
  by_cases h1 : dataset = "WRF"
  · rw [if_pos h1]
    exact ⟨iff_of_false (by simp) (fun h => h.1 h1),
           iff_of_false (by simp) (fun h => h.1 h1)⟩
  · rw [if_neg h1]
    by_cases h2 : dataset = "CESM"
    · rw [if_pos h2]
      exact ⟨iff_of_false (by simp) (fun h => h.2.1 h2),
             iff_of_false (by simp) (fun h => h.2.1 h2)⟩
    · rw [if_neg h2]
      by_cases h3 : dataset = strUpper dataset
      · rw [if_pos h3]
        exact ⟨iff_of_false (by simp) (fun h => h.2.2 h3),
               iff_of_true rfl ⟨h1, h2, h3⟩⟩
      · rw [if_neg h3]
        exact ⟨iff_of_true rfl ⟨h1, h2, h3⟩,
               iff_of_false (by simp) (fun h => h3 h.2.2)⟩

/-- C8 is false as stated: the unknown all-uppercase identifier `"FOO"`
(neither `'WRF'` nor `'CESM'` nor a dataset module of this repository) does
not reach the `DatasetError` branch - it selects the observational branch,
whose first step is a module import. -/
theorem C8_counterexample :
    datasetDispatch "FOO" = DatasetBranch.observational ∧
    DatasetBranch.observational ≠ DatasetBranch.notFoundError := by decide

/-! ## Claim C3: temporary path and atomic publication -/

/-- The temporary-name marker is never empty. -/
theorem shpavgTmppfx_length_pos (lparallel : Bool) (shapeName pidstr : String) :
    1 ≤ (shpavgTmppfx lparallel shapeName pidstr).length := by
  have h4 : ("tmp_" : String).length = 4 := rfl
  rcases lparallel <;> simp [shpavgTmppfx, String.length_append] <;> omega

/-- Without `lreturn`, the temporary file name differs from the final one. -/
theorem shpavgTmpfilename_ne (lparallel : Bool)
    (shapeName pidstr filename : String) :
    shpavgTmpfilename false lparallel shapeName pidstr filename ≠ filename := by
  intro h
  have hl := congrArg String.length h
  simp only [shpavgTmpfilename, if_neg Bool.false_ne_true,
    String.length_append] at hl
  have := shpavgTmppfx_length_pos lparallel shapeName pidstr
  omega

/-- Without `lreturn`, the temporary file path differs from the final one. -/
theorem shpavgTmpfilepath_ne (lparallel : Bool)
    (shapeName pidstr filename avgfolder : String) :
    avgfolder ++ shpavgTmpfilename false lparallel shapeName pidstr filename ≠
      avgfolder ++ filename := by
  intro h
  have hl := congrArg String.length h
  simp only [String.length_append] at hl
  have h2 : (shpavgTmpfilename false lparallel shapeName pidstr
      filename).length =
      (shpavgTmppfx lparallel shapeName pidstr).length + filename.length := by
    simp [shpavgTmpfilename, String.length_append]
  have := shpavgTmppfx_length_pos lparallel shapeName pidstr
  omega

/-- C3 (amended): on the batch path of the shape-average worker
(`lwrite = True`, `lreturn = False`) the sink is created at a temporary path
distinct from the final path, the only event touching the final path besides
removing the stale artifact is a single rename, that rename is the last event
of the job, and the sink has been synced and closed before it; the
climatology worker and the `lreturn` debug path of the shape-average worker,
however, write directly to the final path with no rename. -/
theorem C3_atomic_publish (lparallel tmpExists finalExists : Bool)
    (shapeName pidstr filename avgfolder : String) :
    avgfolder ++ shpavgTmpfilename false lparallel shapeName pidstr filename ≠
        avgfolder ++ filename ∧
    (∀ p, FileEvent.createSink p ∈ shpavgWriteTrace false lparallel tmpExists
          finalExists shapeName pidstr filename avgfolder →
        p = avgfolder ++
          shpavgTmpfilename false lparallel shapeName pidstr filename) ∧
    (shpavgWriteTrace false lparallel tmpExists finalExists shapeName pidstr
        filename avgfolder).getLast? =
      some (FileEvent.renameFile
        (avgfolder ++ shpavgTmpfilename false lparallel shapeName pidstr
          filename)
        (avgfolder ++ filename)) ∧
    List.filter FileEvent.isRename (shpavgWriteTrace false lparallel tmpExists
        finalExists shapeName pidstr filename avgfolder) =
      [FileEvent.renameFile
        (avgfolder ++ shpavgTmpfilename false lparallel shapeName pidstr
          filename)
        (avgfolder ++ filename)] ∧
    FileEvent.syncSink ∈ List.dropLast (shpavgWriteTrace false lparallel
        tmpExists finalExists shapeName pidstr filename avgfolder) ∧
    FileEvent.closeSink ∈ List.dropLast (shpavgWriteTrace false lparallel
        tmpExists finalExists shapeName pidstr filename avgfolder) := by
  refine ⟨shpavgTmpfilepath_ne lparallel shapeName pidstr filename avgfolder,
    ?_, ?_, ?_, ?_, ?_⟩ <;>
  rcases tmpExists <;> rcases finalExists <;>
    simp [shpavgWriteTrace, FileEvent.isRename]

/-- C3 witness: distinctness of the temporary and final paths at a concrete
job. -/
theorem C3_atomic_publish_witness :
    "d/" ++ shpavgTmpfilename false false "shpavg" "[p1]" "f.nc" ≠
      "d/" ++ "f.nc" :=
  (C3_atomic_publish false false false "shpavg" "[p1]" "f.nc" "d/").1

/-- C3 is false as stated: the climatology worker creates its sink directly
at the final artifact path and publishes it with sync and close alone - its
event sequence contains no rename at all, so during computation the final
path holds the partially written file. -/
theorem C3_counterexample :
    FileEvent.createSink ("exp/" ++ "wrfsrfc_clim_d01.nc") ∈
        wrfavgWriteTrace "exp/" "wrfsrfc_clim_d01.nc" ∧
    List.all (wrfavgWriteTrace "exp/" "wrfsrfc_clim_d01.nc")
        (fun e => !(FileEvent.isRename e)) = true := by decide

/-! ## Claim C4: date-range errors of `computeClimatology` -/

/-- When every period's end date is at or after `filebegin`, the period loop
completes without `DateError`, computing the in-range periods and logging the
out-of-range ones as invalid. -/
theorem processPeriodList_ok (filebegin fileend begindate : Int)
    (ps : List Int) (h : ∀ p ∈ ps, filebegin ≤ begindate + p) :
    processPeriodList filebegin fileend begindate ps =
      Except.ok (ps.map (fun p =>
        if fileend < begindate + p then PeriodOutcome.invalidPeriod
        else PeriodOutcome.computed (periodstrWRF begindate (begindate + p)))) := by
  induction ps with
  | nil => rfl
  | cons p ps ih =>
    have hp : filebegin ≤ begindate + p := h p (by simp)
    have hps : ∀ q ∈ ps, filebegin ≤ begindate + q :=
      fun q hq => h q (by simp [hq])
    simp only [processPeriodList, ih hps, List.map_cons]
    rw [if_neg (by omega)]
    by_cases hfe : begindate + p > fileend
    · rw [if_pos hfe, if_pos (by omega)]
    · rw [if_neg hfe, if_neg (by omega)]

/-- C4 (amended): `computeClimatology` raises a date-range error when the
offset places the block's begin year outside `[filebegin, fileend]` (and,
within the loop, when a negative period puts the end year before
`filebegin`); but a block whose end year merely exceeds the source's end
year is not an error: it is logged as an invalid period and skipped, while
the remaining periods are still computed. -/
theorem C4_date_range (filebegin fileend offset : Int) (ps : List Int) :
    (¬ (filebegin ≤ offset + filebegin ∧ offset + filebegin ≤ fileend) →
      computeClimatologyPeriods filebegin fileend offset (some ps) =
        Except.error ()) ∧
    ((filebegin ≤ offset + filebegin ∧ offset + filebegin ≤ fileend) →
      (∀ p ∈ ps, filebegin ≤ offset + filebegin + p) →
      computeClimatologyPeriods filebegin fileend offset (some ps) =
        Except.ok (ps.map (fun p =>
          if fileend < offset + filebegin + p then PeriodOutcome.invalidPeriod
          else PeriodOutcome.computed
            (periodstrWRF (offset + filebegin) (offset + filebegin + p))))) := by
  constructor
  · intro h
    simp only [computeClimatologyPeriods]
    rw [if_neg h]
  · intro h hall
    simp only [computeClimatologyPeriods]
    rw [if_pos h]
    simp only [Option.getD_some]
    exact processPeriodList_ok filebegin fileend (offset + filebegin) ps hall

/-- C4 witness: a 10-year period starting at the begin year of a 1979-1989
source is computed, with period string `"1979-1989"`. -/
theorem C4_date_range_witness :
    computeClimatologyPeriods 1979 1989 0 (some [10]) =
      Except.ok [PeriodOutcome.computed (periodstrWRF 1979 1989)] := by
  have h := (C4_date_range 1979 1989 0 [10]).2 (by norm_num)
    (by intro p hp; simp only [List.mem_singleton] at hp; omega)
  rw [h]; rfl

/-- C4 is false as stated: the spec's own example, `offset=5, period=10`
against a 1979-1989 source, does not fail with a date-range error - the
period is logged as invalid and skipped, and the job completes. -/
theorem C4_counterexample :
    computeClimatologyPeriods 1979 1989 5 (some [10]) =
      Except.ok [PeriodOutcome.invalidPeriod] ∧
    computeClimatologyPeriods 1979 1989 5 (some [10]) ≠
      Except.error () := by
  have h : computeClimatologyPeriods 1979 1989 5 (some [10]) =
      Except.ok [PeriodOutcome.invalidPeriod] := rfl
  exact ⟨h, by rw [h]; exact fun hc => Except.noConfusion hc⟩

/-! ## Claim C10: the default period of `computeClimatology` -/

/-- C10: with `periods=None` and `offset=0` on a source whose end year
exceeds its begin year, the single default period is `filebegin - fileend`,
a negative number; the resulting end date falls before the file's begin
year, and the worker raises `DateError` without computing any climatology. -/
theorem C10_default_period_raises (filebegin fileend : Int)
    (h : filebegin < fileend) :
    defaultPeriods filebegin fileend 0 = [filebegin - fileend] ∧
    filebegin - fileend < 0 ∧
    0 + filebegin + (filebegin - fileend) < filebegin ∧
    computeClimatologyPeriods filebegin fileend 0 none = Except.error () := by
  refine ⟨by simp [defaultPeriods], by omega, by omega, ?_⟩
  simp only [computeClimatologyPeriods, Option.getD_none, defaultPeriods,
    processPeriodList]
  rw [if_pos (by omega)]
  rw [if_pos (by omega)]

/-- C10 witness: the default-period `DateError` at a concrete 1979-1989
source. -/
theorem C10_default_period_raises_witness :
    computeClimatologyPeriods 1979 1989 0 none = Except.error () :=
  (C10_default_period_raises 1979 1989 (by decide)).2.2.2

/-! ## Claim C9: parallel-mode input checking -/

/-- C9: a call of the shape-average worker in parallel mode with writing
disabled or dataset-return requested raises `IOError` during input checking;
the result carries no setup action, so no logging setup, dataset loading or
filesystem access has happened, and parallel-mode results are delivered only
through written files. -/
theorem C9_parallel_checks (a : ExtractionFlags)
    (h1 : a.datasetIsString = true) (h2 : a.dataargsIsDict = true)
    (h3 : a.shapeDictIsOrderedDict = true) (h4 : a.lparallel = true)
    (h5 : a.lwrite = false ∨ a.lreturn = true) :
    performExtractionSetup a = Except.error WorkerError.errInputOutput := by
  unfold performExtractionSetup
  rw [h1, h2, h3, h4]
  rcases h5 with h5 | h5
  · rw [h5]; rfl
  · rw [h5]
    cases a.lwrite <;> rfl

/-- C9 witness: the `IOError` at the concrete parallel job with
`lwrite = False`. -/
theorem C9_parallel_checks_witness :
    performExtractionSetup ⟨true, true, true, true, false, false⟩ =
      Except.error WorkerError.errInputOutput :=
  C9_parallel_checks ⟨true, true, true, true, false, false⟩ rfl rfl rfl rfl
    (Or.inl rfl)

/-! ## Claim C7: batch exit code -/

/-- The ceiling division of `10*ec` by `n` is below `k` iff `10*ec ≤ k*n`. -/
theorem exitCeil_le_iff (ec n k : Nat) (hn : 0 < n) :
    exitCeil ec n ≤ k ↔ 10 * ec ≤ k * n := by
  unfold exitCeil
  rw [Nat.div_le_iff_le_mul_add_pred hn, Nat.mul_comm k n]
  generalize n * k = m
  omega

/-- C7 (amended): the batch exit code is 0 iff no job failed; otherwise it
is `10 + ceil(10*ec/n)`, bounded by 20 and weakly monotone in the failure
fraction; it attains the maximum 20 exactly when more than nine tenths of
the jobs failed - in particular when all failed, but not only then. -/
theorem C7_exit_code (ec n ec2 n2 : Nat) (hn : 1 ≤ n) (hec : ec ≤ n)
    (hn2 : 1 ≤ n2) (hec2 : ec2 ≤ n2) (hfrac : ec * n2 ≤ ec2 * n) :
    (batchExitCode ec n = 0 ↔ ec = 0) ∧
    (0 < ec → batchExitCode ec n = 10 + (10 * ec + n - 1) / n) ∧
    batchExitCode ec n ≤ 20 ∧
    (batchExitCode ec n = 20 ↔ 9 * n < 10 * ec) ∧
    batchExitCode ec n ≤ batchExitCode ec2 n2 := by
  have hceil10 : exitCeil ec n ≤ 10 := by
    rw [exitCeil_le_iff ec n 10 hn]; omega
  have h9 := exitCeil_le_iff ec n 9 hn
  refine ⟨?_, ?_, ?_, ?_, ?_⟩
  · unfold batchExitCode; split <;> omega
  · intro h0; unfold batchExitCode exitCeil; rw [if_pos h0]
  · unfold batchExitCode; split <;> omega
  · unfold batchExitCode; split <;> omega
  · by_cases h0 : 0 < ec
    · have h02 : 0 < ec2 := by
        rcases Nat.eq_zero_or_pos ec2 with hz | hz
        · rw [hz, Nat.zero_mul] at hfrac
          have hpos := Nat.mul_pos h0 hn2
          exact absurd (Nat.le_zero.mp hfrac) (Nat.pos_iff_ne_zero.mp hpos)
        · exact hz
      have ha : 10 * ec2 ≤ exitCeil ec2 n2 * n2 :=
        (exitCeil_le_iff ec2 n2 (exitCeil ec2 n2) hn2).mp (Nat.le_refl _)
      have hb : 10 * ec * n2 ≤ (exitCeil ec2 n2 * n) * n2 := by
        calc 10 * ec * n2 ≤ 10 * (ec2 * n) := by
                rw [Nat.mul_assoc]; exact Nat.mul_le_mul_left 10 hfrac
          _ = (10 * ec2) * n := by ring
          _ ≤ (exitCeil ec2 n2 * n2) * n := Nat.mul_le_mul_right n ha
          _ = (exitCeil ec2 n2 * n) * n2 := by ring
      have hc : 10 * ec ≤ exitCeil ec2 n2 * n :=
        Nat.le_of_mul_le_mul_right hb (by omega)
      have hd : exitCeil ec n ≤ exitCeil ec2 n2 :=
        (exitCeil_le_iff ec n _ hn).mpr hc
      unfold batchExitCode
      rw [if_pos h0, if_pos h02]
      omega
    · unfold batchExitCode
      rw [if_neg h0]
      exact Nat.zero_le _

/-- C7 witness: monotonicity and the bound applied at the concrete batch of
20 jobs with 19 and 20 failures. -/
theorem C7_exit_code_witness : batchExitCode 19 20 ≤ batchExitCode 20 20 :=
  (C7_exit_code 19 20 20 20 (by decide) (by decide) (by decide) (by decide)
    (by decide)).2.2.2.2

/-- C7 is false as stated: with 19 of 20 jobs failed the exit code already
equals the maximum 20, the same value as when all 20 jobs failed, so the
code is not maximal exactly when all jobs failed. -/
theorem C7_counterexample :
    batchExitCode 19 20 = 20 ∧ batchExitCode 20 20 = 20 ∧
    (19 : Nat) ≠ 20 := by decide

end GeoPy
